import Mathlib

/-!
Shallow embedding of the `rust-api` repository core
(`src-tauri/src/security.rs`, `src-tauri/src/api_client.rs`,
`src-tauri/src/lib.rs`): the input validator, the six backend-gateway
operations, and the response formatter of the `send_query` command.

Strings are Lean `String`s; Rust `str::to_lowercase` is modelled per
character by `Char.toLower`; `serde_json::Value` is modelled by the
inductive `Json`, rendered compactly as serde renders it with `Display`.
Each Tauri command is embedded as a small program tree (`Prog`) whose
nodes record the outbound HTTP requests, so that "issues exactly one
request" and "issues no request" are provable statements; the network
outcome (transport failure, undecodable body, parsed value) is supplied
by the environment.
-/

namespace RustApi

/-- Boolean test that `n` is a prefix of `h`, on character lists. -/
def isPrefixL : List Char → List Char → Bool
  | [], _ => true
  | _ :: _, [] => false
  | a :: as, b :: bs => a == b && isPrefixL as bs

/-- Boolean substring test: does `h` contain `n` as a contiguous substring? -/
def hasSubstrL (n : List Char) : List Char → Bool
  | [] => n.isEmpty
  | c :: t => isPrefixL n (c :: t) || hasSubstrL n t

/-- `strContains hay needle`: `needle` occurs contiguously inside `hay`.
Model of Rust `str::contains`. -/
def strContains (hay needle : String) : Bool :=
  hasSubstrL needle.data hay.data

/-- Per-character lowercasing of a character list (model of Rust
`str::to_lowercase`, which lowercases character by character). -/
def lowerL (l : List Char) : List Char := l.map Char.toLower

/-- Embedding of `security::validate_input` (security.rs lines 1-4):
`!blacklist.iter().any(|&word| input.to_lowercase().contains(&word.to_lowercase()))`
with `blacklist = ["DROP", "DELETE", "INSERT", "UPDATE"]`. -/
def validate_input (input : String) : Bool :=
  let blacklist : List String := ["DROP", "DELETE", "INSERT", "UPDATE"]
  !(blacklist.any fun word => hasSubstrL (lowerL word.data) (lowerL input.data))

/-- Model of `serde_json::Value`.  Numbers are modelled as integers (no
claim depends on float rendering). -/
inductive Json where
  | null : Json
  | bool (b : Bool) : Json
  | num (n : Int) : Json
  | str (s : String) : Json
  | arr (xs : List Json) : Json
  | obj (fields : List (String × Json)) : Json
deriving Repr

/-- JSON string escaping of one character (quote and backslash). -/
def escapeChar (c : Char) : String :=
  if c = '"' then "\\\"" else if c = '\\' then "\\\\" else String.singleton c

/-- JSON string escaping. -/
def escape (s : String) : String :=
  String.join (s.data.map escapeChar)

mutual

/-- Compact rendering of a `Json` value, as `serde_json::Value`'s `Display`
(used by `format!("{}", value)` in lib.rs). -/
def render : Json → String
  | Json.null => "null"
  | Json.bool b => if b then "true" else "false"
  | Json.num n => toString n
  | Json.str s => "\"" ++ escape s ++ "\""
  | Json.arr xs => "[" ++ renderList xs ++ "]"
  | Json.obj fs => "\x7b" ++ renderObj fs ++ "\x7d"

/-- Comma-separated rendering of a list of `Json` values. -/
def renderList : List Json → String
  | [] => ""
  | [x] => render x
  | x :: y :: rest => render x ++ "," ++ renderList (y :: rest)

/-- Comma-separated rendering of the fields of a `Json` object. -/
def renderObj : List (String × Json) → String
  | [] => ""
  | [(k, v)] => "\"" ++ escape k ++ "\":" ++ render v
  | (k, v) :: p :: rest =>
      "\"" ++ escape k ++ "\":" ++ render v ++ "," ++ renderObj (p :: rest)

end

/-- Model of `serde_json::Value::is_array`. -/
def Json.is_array : Json → Bool
  | Json.arr _ => true
  | _ => false

/-- Model of `serde_json::Value::as_array` (an `Option`, whose `unwrap`
panics when it is `None`). -/
def Json.as_array : Json → Option (List Json)
  | Json.arr xs => some xs
  | _ => none

/-- An outbound HTTP request: method, absolute URL, optional JSON body. -/
structure HttpRequest where
  method : String
  url : String
  body : Option Json
deriving Repr

/-- Environment-supplied outcome of an HTTP exchange whose body is decoded
directly with reqwest's `.json::<T>()`: either a transport failure
(rendered cause of the `reqwest::Error`), or a received response whose raw
body text failed to decode (the decoder's error message does not expose the
body), or a decoded value. -/
inductive NetResult (α : Type) where
  | transportErr (cause : String) : NetResult α
  | decodeErr (body : String) (cause : String) : NetResult α
  | ok (v : α) : NetResult α

/-- A command is a finite tree: it either returns, or issues one HTTP
request and continues on the environment-supplied outcome `ε`. -/
inductive Prog (ε : Type) (α : Type) where
  | ret (a : α) : Prog ε α
  | call (req : HttpRequest) (k : ε → Prog ε α) : Prog ε α

/-- Run a program against an oracle giving the outcome of the `n`-th
exchange. -/
def Prog.run {ε α : Type} : Prog ε α → (Nat → ε) → Nat → α
  | Prog.ret a, _, _ => a
  | Prog.call _ k, o, n => (k (o n)).run o (n + 1)

/-- The list of HTTP requests a program issues when run against an oracle. -/
def Prog.reqs {ε α : Type} : Prog ε α → (Nat → ε) → Nat → List HttpRequest
  | Prog.ret _, _, _ => []
  | Prog.call req k, o, n => req :: (k (o n)).reqs o (n + 1)

/-- Embedding of `api_client::QueryResponse` (the wire shape of the
`/ai/process` response; `row_count` is a `usize`). -/
structure QueryResponse where
  success : Bool
  sql : Option String
  result : Option Json
  ai_response : Option String
  error : Option String
  tables_available : Option (List String)
  row_count : Option Nat

/-- Embedding of lib.rs `Driver` (`HashMap` modelled as an
association list). -/
structure Driver where
  name : String
  description : String
  required_fields : List String
  field_types : List (String × String)

/-- Embedding of lib.rs `DatabaseResponse`. -/
structure DatabaseResponse where
  success : Bool
  message : String
  driver_type : Option String
  tables : List String

/-- Embedding of lib.rs `SimpleResponse`. -/
structure SimpleResponse where
  success : Bool
  message : String

/-- Embedding of lib.rs `DatabaseStatus`. -/
structure DatabaseStatus where
  connected : Bool
  driver_type : Option String
  tables : List String

/-- Environment-supplied outcome for `connect_database`, whose code reads
the raw body text itself and then runs `serde_json::from_str` on it: either
a transport failure, or a received response with its status, raw body text,
and the outcome of parsing that text into a `DatabaseResponse` (the parse
error rendered as a string). -/
inductive ConnectNet where
  | transportErr (cause : String) : ConnectNet
  | response (status : Nat) (text : String) (parsed : Except String DatabaseResponse) : ConnectNet

/-- The one C-like loop of the formatter (lib.rs lines 77-81):
`for (i, record) in results.iter().enumerate() { if i < 5 { push "  {i+1}: {record}\n" } }`,
embedded with the running index explicit. -/
def recordsLoop : Nat → List Json → String
  | _, [] => ""
  | i, record :: rest =>
      (if i < 5 then "  " ++ toString (i + 1) ++ ": " ++ render record ++ "\n" else "")
        ++ recordsLoop (i + 1) rest

/-- The body of the Result section (lib.rs lines 71-91), pushed after the
`"📊 Resultado:\n"` header.  `none` models the `panic` of
`result_data.as_array().unwrap()`; it is produced exactly when `is_array`
holds but `as_array` gives nothing. -/
def resultContent (v : Json) : Option String :=
  if v.is_array then
    match v.as_array with
    | some results =>
        some (if results.isEmpty then "Nenhum resultado encontrado.\n"
              else (toString results.length ++ " registros encontrados:\n")
                   ++ recordsLoop 0 results
                   ++ (if results.length > 5 then
                         "  ... e mais " ++ toString (results.length - 5) ++ " registros\n"
                       else ""))
    | none => none
  else some (render v ++ "\n")

/-- The success branch of the `send_query` command (lib.rs lines 53-98):
`result_text` starts empty and the four sections are appended in order.
`none` propagates the modelled panic of the unchecked array extraction. -/
def format_success (r : QueryResponse) : Option String :=
  let t0 : String := ""
  let t1 := match r.ai_response with
    | some ai => if !ai.isEmpty then t0 ++ ("🤖 IA: " ++ ai ++ "\n\n") else t0
    | none => t0
  let t2 := match r.sql with
    | some sql => if !sql.isEmpty then t1 ++ ("📝 SQL: " ++ sql ++ "\n\n") else t1
    | none => t1
  let t3opt := match r.result with
    | some rd => (resultContent rd).map (fun rs => t2 ++ "📊 Resultado:\n" ++ rs)
    | none => some t2
  t3opt.map (fun t3 => match r.row_count with
    | some rc => t3 ++ ("\n📈 Total de registros: " ++ toString rc)
    | none => t3)

/-- Processing of a decoded `/ai/process` response by the `send_query`
command (lib.rs lines 52-103): on `success` format the sections, otherwise
fail with `"❌ "` and the error field or the `"Erro desconhecido"`
fallback.  The outer `none` models the formatter panic. -/
def processQueryResponse (r : QueryResponse) : Option (Except String String) :=
  if r.success then (format_success r).map Except.ok
  else some (Except.error ("❌ " ++ r.error.getD "Erro desconhecido"))

/-- The request built by `api_client::send_query` (api_client.rs lines
20-34): POST to the fixed origin with the serialized `QueryRequest`. -/
def send_query_request (question : String) : HttpRequest :=
  ⟨"POST", "http://localhost:8000/ai/process", some (Json.obj [("question", Json.str question)])⟩

/-- The `send_query` Tauri command (lib.rs lines 43-106): validate, then
call the API and process the outcome.  Both error cases of the api_client
`Result` (transport and decode, one `reqwest::Error` type in the source)
are rendered with the same message, as in the source `match`. -/
def send_query (question : String) :
    Prog (NetResult QueryResponse) (Option (Except String String)) :=
  if !(validate_input question) then
    Prog.ret (some (Except.error "Entrada bloqueada por segurança!"))
  else
    Prog.call (send_query_request question) fun res =>
      Prog.ret (match res with
        | NetResult.ok response => processQueryResponse response
        | NetResult.transportErr err =>
            some (Except.error ("Erro ao comunicar com backend: " ++ err))
        | NetResult.decodeErr _ err =>
            some (Except.error ("Erro ao comunicar com backend: " ++ err)))

/-- The `get_database_drivers` command (lib.rs lines 108-124). -/
def get_database_drivers :
    Prog (NetResult (List (String × Driver))) (Except String (List (String × Driver))) :=
  Prog.call ⟨"GET", "http://localhost:8000/drivers", none⟩ fun res =>
    Prog.ret (match res with
      | NetResult.ok drivers => Except.ok drivers
      | NetResult.decodeErr _ e => Except.error ("Erro ao processar resposta: " ++ e)
      | NetResult.transportErr e => Except.error ("Erro ao conectar com backend: " ++ e))

/-- The request built by `connect_database` (lib.rs lines 126-137): POST
with the serialized `DatabaseConfig { driver_type, config }`. -/
def connect_database_request (driver_type : String) (config : List (String × Json)) :
    HttpRequest :=
  ⟨"POST", "http://localhost:8000/database/connect",
    some (Json.obj [("driver_type", Json.str driver_type), ("config", Json.obj config)])⟩

/-- The `connect_database` command (lib.rs lines 126-154): on a received
response it reads the raw body text and parses it with
`serde_json::from_str`; a parse failure reports both the parse error and
the raw body text. -/
def connect_database (driver_type : String) (config : List (String × Json)) :
    Prog ConnectNet (Except String DatabaseResponse) :=
  Prog.call (connect_database_request driver_type config) fun res =>
    Prog.ret (match res with
      | ConnectNet.response _ text parsed =>
          (match parsed with
           | Except.ok result => Except.ok result
           | Except.error e =>
               Except.error ("Erro ao processar JSON: " ++ e ++ " - Resposta: " ++ text))
      | ConnectNet.transportErr e => Except.error ("Erro ao conectar com backend: " ++ e))

/-- The `disconnect_database` command (lib.rs lines 156-172). -/
def disconnect_database : Prog (NetResult SimpleResponse) (Except String SimpleResponse) :=
  Prog.call ⟨"POST", "http://localhost:8000/database/disconnect", none⟩ fun res =>
    Prog.ret (match res with
      | NetResult.ok result => Except.ok result
      | NetResult.decodeErr _ e => Except.error ("Erro ao processar resposta: " ++ e)
      | NetResult.transportErr e => Except.error ("Erro ao conectar com backend: " ++ e))

/-- The `get_database_status` command (lib.rs lines 174-190). -/
def get_database_status : Prog (NetResult DatabaseStatus) (Except String DatabaseStatus) :=
  Prog.call ⟨"GET", "http://localhost:8000/database/status", none⟩ fun res =>
    Prog.ret (match res with
      | NetResult.ok status => Except.ok status
      | NetResult.decodeErr _ e => Except.error ("Erro ao processar resposta: " ++ e)
      | NetResult.transportErr e => Except.error ("Erro ao conectar com backend: " ++ e))

/-- The `create_sample_data` command (lib.rs lines 192-208). -/
def create_sample_data : Prog (NetResult SimpleResponse) (Except String SimpleResponse) :=
  Prog.call ⟨"POST", "http://localhost:8000/database/sample-data", none⟩ fun res =>
    Prog.ret (match res with
      | NetResult.ok result => Except.ok result
      | NetResult.decodeErr _ e => Except.error ("Erro ao processar resposta: " ++ e)
      | NetResult.transportErr e => Except.error ("Erro ao conectar com backend: " ++ e))

/-! Spec-side definitions (following the wording of spec.md §4.3): the four
sections of the formatted display string, each empty when its field is
absent (or, for the AI and SQL sections, empty). -/

/-- Spec §4.3 item 1: the AI section, present iff `aiResponse` is present
and non-empty. -/
def aiSectionSpec (r : QueryResponse) : String :=
  match r.ai_response with
  | some a => if a.isEmpty then "" else "🤖 IA: " ++ a ++ "\n\n"
  | none => ""

/-- Spec §4.3 item 2: the SQL section, present iff `sql` is present and
non-empty. -/
def sqlSectionSpec (r : QueryResponse) : String :=
  match r.sql with
  | some s => if s.isEmpty then "" else "📝 SQL: " ++ s ++ "\n\n"
  | none => ""

/-- Spec §4.3 item 3: the Result section, present iff `result` is
present. -/
def resultSectionSpec (r : QueryResponse) : String :=
  match r.result with
  | some v => "📊 Resultado:\n" ++ (resultContent v).getD ""
  | none => ""

/-- Spec §4.3 item 4: the trailing total-records line, present iff
`rowCount` is present. -/
def rowCountSectionSpec (r : QueryResponse) : String :=
  match r.row_count with
  | some n => "\n📈 Total de registros: " ++ toString n
  | none => ""

/-- Spec-side rendering of one record line of the Result section:
`"<index>: <value>"` with a 1-based index. -/
def recordLineSpec (p : Nat × Json) : String :=
  "  " ++ toString (p.1 + 1) ++ ": " ++ render p.2 ++ "\n"

/-- A sample successful `/ai/process` response used to instantiate
hypotheses at concrete inputs. -/
def sampleQR : QueryResponse :=
  ⟨true, some "SELECT 1", some (Json.arr [Json.num 1]), some "Hi", none, none, some 1⟩

/-- A sample failed `/ai/process` response. -/
def sampleErrQR : QueryResponse :=
  ⟨false, none, none, none, some "syntax error", none, none⟩

/-- A sample all-absent successful `/ai/process` response. -/
def emptyQR : QueryResponse := ⟨true, none, none, none, none, none, none⟩

/-! Helper lemmas. -/

theorem str_data_append (a b : String) : (a ++ b).data = a.data ++ b.data := by
  cases a; cases b; rfl

theorem str_ext (a b : String) (h : a.data = b.data) : a = b := by
  cases a; cases b; cases h; rfl

theorem str_append_assoc (a b c : String) : a ++ b ++ c = a ++ (b ++ c) := by
  apply str_ext
  simp only [str_data_append, List.append_assoc]

theorem str_nil_append (s : String) : "" ++ s = s := by cases s; rfl

theorem str_append_nil (s : String) : s ++ "" = s := by
  apply str_ext
  simp only [str_data_append]
  simp

theorem isPrefixL_iff (n h : List Char) : isPrefixL n h = true ↔ ∃ r, h = n ++ r := by
  induction n generalizing h with
  | nil => simp [isPrefixL]
  | cons a as ih =>
    cases h with
    | nil => simp [isPrefixL]
    | cons b bs =>
      simp only [isPrefixL, Bool.and_eq_true, beq_iff_eq, ih, List.cons_append, List.cons.injEq]
      constructor
      · rintro ⟨rfl, r, rfl⟩
        exact ⟨r, rfl, rfl⟩
      · rintro ⟨r, rfl, rfl⟩
        exact ⟨rfl, r, rfl⟩

theorem hasSubstrL_iff (n h : List Char) :
    hasSubstrL n h = true ↔ ∃ l r, h = l ++ n ++ r := by
  induction h with
  | nil =>
    simp only [hasSubstrL, List.isEmpty_iff]
    constructor
    · rintro rfl
      exact ⟨[], [], rfl⟩
    · rintro ⟨l, r, hlr⟩
      rcases List.append_eq_nil.mp (List.append_eq_nil.mp hlr.symm).1 with ⟨-, h2⟩
      exact h2
  | cons c t ih =>
    simp only [hasSubstrL, Bool.or_eq_true, isPrefixL_iff, ih]
    constructor
    · rintro (⟨r, hr⟩ | ⟨l, r, hlr⟩)
      · exact ⟨[], r, by simp [hr]⟩
      · exact ⟨c :: l, r, by simp [hlr]⟩
    · rintro ⟨l, r, hlr⟩
      cases l with
      | nil =>
        left
        exact ⟨r, by simpa using hlr⟩
      | cons x xs =>
        right
        rw [List.cons_append, List.cons_append] at hlr
        rcases List.cons.injEq c t x (xs ++ n ++ r) ▸ hlr with ⟨-, h2⟩
        exact ⟨xs, r, h2⟩

/-- A string always contains its own suffix. -/
theorem strContains_suffix (a b : String) : strContains (a ++ b) b = true := by
  rw [strContains, hasSubstrL_iff]
  exact ⟨a.data, [], by simp [str_data_append]⟩

/-- Appending to a non-empty string is non-empty. -/
theorem str_append_left_ne_empty (a b : String) (ha : a ≠ "") : a ++ b ≠ "" := by
  intro he
  apply ha
  have hd := congrArg String.data he
  rw [str_data_append] at hd
  have hnil : "".data = ([] : List Char) := rfl
  rw [hnil] at hd
  exact str_ext a "" (by simpa using (List.append_eq_nil.mp hd).1)

/-- The unchecked array extraction is guarded: `resultContent` never
produces the panic marker. -/
theorem resultContent_isSome (v : Json) : (resultContent v).isSome = true := by
  cases v <;> simp [resultContent, Json.is_array, Json.as_array]

/-- The sequentially built success text equals the concatenation of the
four independent sections. -/
theorem format_success_eq (r : QueryResponse) :
    format_success r =
      some (aiSectionSpec r ++ sqlSectionSpec r ++ resultSectionSpec r ++ rowCountSectionSpec r) := by
  rcases r with ⟨succF, sqlF, resultF, aiF, errF, tavF, rcF⟩
  simp only [format_success, aiSectionSpec, sqlSectionSpec, resultSectionSpec, rowCountSectionSpec]
  cases resultF with
  | none =>
    cases rcF <;> cases aiF <;> cases sqlF <;>
      simp [str_nil_append, str_append_nil, str_append_assoc] <;>
      split <;>
      simp_all [str_nil_append, str_append_nil, str_append_assoc] <;>
      split <;>
      simp_all [str_nil_append, str_append_nil, str_append_assoc]
  | some v =>
    obtain ⟨s, hs⟩ := Option.isSome_iff_exists.mp (resultContent_isSome v)
    cases rcF <;> cases aiF <;> cases sqlF <;>
      simp [hs, str_nil_append, str_append_nil, str_append_assoc] <;>
      split <;>
      simp_all [str_nil_append, str_append_nil, str_append_assoc] <;>
      split <;>
      simp_all [str_nil_append, str_append_nil, str_append_assoc]

/-- Past the fifth record the loop appends nothing. -/
theorem recordsLoop_ge (xs : List Json) (i : Nat) (h : 5 ≤ i) : recordsLoop i xs = "" := by
  induction xs generalizing i with
  | nil => rfl
  | cons x rest ih =>
    simp only [recordsLoop]
    rw [if_neg (by omega), ih (i + 1) (by omega)]
    rfl

/-- The guarded enumeration loop renders exactly the first `5 - i`
records, indexed from `i`. -/
theorem recordsLoop_eq (xs : List Json) (i : Nat) :
    recordsLoop i xs =
      ((List.enumFrom i (xs.take (5 - i))).map recordLineSpec).foldr (fun a b => a ++ b) "" := by
  induction xs generalizing i with
  | nil => simp [recordsLoop]
  | cons x rest ih =>
    by_cases h : i < 5
    · have h5 : 5 - i = (5 - (i + 1)) + 1 := by omega
      rw [h5]
      simp only [List.take_succ_cons, List.enumFrom, List.map, List.foldr, recordsLoop]
      rw [if_pos h, ih (i + 1)]
      rfl
    · rw [Nat.sub_eq_zero_of_le (by omega), List.take_zero]
      simp only [List.enumFrom, List.map, List.foldr, recordsLoop]
      rw [if_neg h, recordsLoop_ge rest (i + 1) (by omega)]
      rfl

/-- Lowercasing the four blacklist keywords gives their lowercase forms. -/
theorem lower_blacklist :
    lowerL "DROP".data = "drop".data ∧ lowerL "DELETE".data = "delete".data ∧
      lowerL "INSERT".data = "insert".data ∧ lowerL "UPDATE".data = "update".data := by
  decide

/-- Claim C1: `validate_input` returns `false` if and only if the
lower-cased input contains, as a contiguous substring at any position, one
of the keywords "drop", "delete", "insert", "update"; for every string
containing none of them it returns `true` (the other direction of the
iff). -/
theorem C1_validate_input_blacklist (s : String) :
    validate_input s = false ↔
      ∃ w ∈ (["drop", "delete", "insert", "update"] : List String),
        ∃ l r, lowerL s.data = l ++ w.data ++ r := by
  simp only [validate_input]
  rw [Bool.not_eq_false']
  rw [List.any_eq_true]
  constructor
  · rintro ⟨w, hw, hsub⟩
    rw [hasSubstrL_iff] at hsub
    obtain ⟨l, r, hlr⟩ := hsub
    simp only [List.mem_cons, List.not_mem_nil, or_false] at hw
    rcases hw with rfl | rfl | rfl | rfl
    · exact ⟨"drop", by simp, l, r, by rw [← lower_blacklist.1]; exact hlr⟩
    · exact ⟨"delete", by simp, l, r, by rw [← lower_blacklist.2.1]; exact hlr⟩
    · exact ⟨"insert", by simp, l, r, by rw [← lower_blacklist.2.2.1]; exact hlr⟩
    · exact ⟨"update", by simp, l, r, by rw [← lower_blacklist.2.2.2]; exact hlr⟩
  · rintro ⟨w, hw, l, r, hlr⟩
    simp only [List.mem_cons, List.not_mem_nil, or_false] at hw
    rcases hw with rfl | rfl | rfl | rfl
    · exact ⟨"DROP", by simp, (hasSubstrL_iff _ _).mpr ⟨l, r, by rw [lower_blacklist.1]; exact hlr⟩⟩
    · exact ⟨"DELETE", by simp,
        (hasSubstrL_iff _ _).mpr ⟨l, r, by rw [lower_blacklist.2.1]; exact hlr⟩⟩
    · exact ⟨"INSERT", by simp,
        (hasSubstrL_iff _ _).mpr ⟨l, r, by rw [lower_blacklist.2.2.1]; exact hlr⟩⟩
    · exact ⟨"UPDATE", by simp,
        (hasSubstrL_iff _ _).mpr ⟨l, r, by rw [lower_blacklist.2.2.2]; exact hlr⟩⟩

/-- Claim C2: when the validator rejects the question, the `send_query`
command is the immediate rejection return — it fails with the blocked-input
error and its request trace is empty for every network oracle (the
validator runs before any network call). -/
theorem C2_validator_gates_network (q : String) (h : validate_input q = false) :
    send_query q = Prog.ret (some (Except.error "Entrada bloqueada por segurança!")) ∧
      ∀ o : Nat → NetResult QueryResponse, Prog.reqs (send_query q) o 0 = [] := by
  have hsq : send_query q = Prog.ret (some (Except.error "Entrada bloqueada por segurança!")) := by
    simp [send_query, h]
  exact ⟨hsq, fun o => by rw [hsq]; rfl⟩

/-- Witness for C2 at the concrete blocked question "drop table users". -/
theorem C2_witness :
    validate_input "drop table users" = false ∧
      (send_query "drop table users" =
          Prog.ret (some (Except.error "Entrada bloqueada por segurança!")) ∧
        ∀ o : Nat → NetResult QueryResponse,
          Prog.reqs (send_query "drop table users") o 0 = []) :=
  ⟨by decide, C2_validator_gates_network "drop table users" (by decide)⟩

/-- Claim C3: for every successful `QueryResult` the formatted display
string is exactly the concatenation, in the fixed order AI section, SQL
section, Result section, trailing total-records line, of the present-only
sections (each spec-side section is `""` when its field is absent, or, for
the AI and SQL sections, empty; the blank-line separators are part of the
section strings). -/
theorem C3_success_formatting (r : QueryResponse) (h : r.success = true) :
    processQueryResponse r =
      some (Except.ok
        (aiSectionSpec r ++ sqlSectionSpec r ++ resultSectionSpec r ++ rowCountSectionSpec r)) := by
  rw [processQueryResponse, if_pos h, format_success_eq]
  rfl

/-- Witness for C3 at a concrete fully populated successful response. -/
theorem C3_witness :
    sampleQR.success = true ∧
      processQueryResponse sampleQR =
        some (Except.ok
          (aiSectionSpec sampleQR ++ sqlSectionSpec sampleQR ++ resultSectionSpec sampleQR
            ++ rowCountSectionSpec sampleQR)) :=
  ⟨rfl, C3_success_formatting sampleQR rfl⟩

/-- Claim C4: for a successful result whose `result` field is a JSON list
`xs`, the Result section body is "Nenhum resultado encontrado.\n" when the
list is empty, and otherwise the records-found header, the first (at most)
five records rendered "<index>: <value>" with a 1-based index, and, when
more than five exist, the "... e mais <N-5> registros" trailer. -/
theorem C4_result_list_rendering (xs : List Json) :
    resultContent (Json.arr xs) =
      some (if xs.isEmpty then "Nenhum resultado encontrado.\n"
            else (toString xs.length ++ " registros encontrados:\n")
                 ++ ((List.enumFrom 0 (xs.take 5)).map recordLineSpec).foldr (fun a b => a ++ b) ""
                 ++ (if xs.length > 5 then
                       "  ... e mais " ++ toString (xs.length - 5) ++ " registros\n"
                     else "")) := by
  have h5 : xs.take (5 - 0) = xs.take 5 := by rfl
  rw [resultContent]
  simp only [Json.is_array, if_true, Json.as_array, recordsLoop_eq xs 0, h5]

/-- Claim C5: a failed (`success = false`) query result makes the command
fail with the backend error message containing the `error` field when
present, and otherwise the generic "Erro desconhecido" fallback, never an
empty message. -/
theorem C5_failure_message (r : QueryResponse) (h : r.success = false) :
    processQueryResponse r = some (Except.error ("❌ " ++ r.error.getD "Erro desconhecido")) ∧
      (∀ e, r.error = some e →
        strContains ("❌ " ++ r.error.getD "Erro desconhecido") e = true) ∧
      ("❌ " ++ r.error.getD "Erro desconhecido") ≠ "" := by
  refine ⟨by simp [processQueryResponse, h], ?_, str_append_left_ne_empty _ _ (by decide)⟩
  intro e he
  rw [he, Option.getD_some]
  exact strContains_suffix _ _

/-- Witness for C5 at a concrete failed response carrying "syntax error". -/
theorem C5_witness :
    sampleErrQR.success = false ∧
      (processQueryResponse sampleErrQR =
          some (Except.error ("❌ " ++ sampleErrQR.error.getD "Erro desconhecido")) ∧
        (∀ e, sampleErrQR.error = some e →
          strContains ("❌ " ++ sampleErrQR.error.getD "Erro desconhecido") e = true) ∧
        ("❌ " ++ sampleErrQR.error.getD "Erro desconhecido") ≠ "") :=
  ⟨rfl, C5_failure_message sampleErrQR rfl⟩

/-- Claim C9 (implicit): a successful result with absent-or-empty
`aiResponse` and `sql` and absent `result` and `rowCount` makes the
command succeed with the empty string. -/
theorem C9_all_absent_empty_output (r : QueryResponse) (hs : r.success = true)
    (hai : r.ai_response = none ∨ r.ai_response = some "")
    (hsql : r.sql = none ∨ r.sql = some "")
    (hres : r.result = none) (hrc : r.row_count = none) :
    processQueryResponse r = some (Except.ok "") := by
  rcases hai with h1 | h1 <;> rcases hsql with h2 | h2 <;>
    simp [processQueryResponse, hs, format_success, h1, h2, hres, hrc] <;>
    decide

/-- Witness for C9 at the concrete all-absent successful response. -/
theorem C9_witness :
    emptyQR.success = true ∧
      (emptyQR.ai_response = none ∨ emptyQR.ai_response = some "") ∧
      (emptyQR.sql = none ∨ emptyQR.sql = some "") ∧
      emptyQR.result = none ∧ emptyQR.row_count = none ∧
      processQueryResponse emptyQR = some (Except.ok "") :=
  ⟨rfl, Or.inl rfl, Or.inl rfl, rfl, rfl,
    C9_all_absent_empty_output emptyQR rfl (Or.inl rfl) (Or.inl rfl) rfl rfl⟩

/-- Claim C10 (implicit): the formatter is total over every JSON value of
the `result` field — the `as_array().unwrap()` runs only under the
`is_array()` guard, so the panic marker is never produced, neither by the
Result section nor by the whole success formatter. -/
theorem C10_formatter_total :
    (∀ v : Json, (resultContent v).isSome = true) ∧
      (∀ r : QueryResponse, (format_success r).isSome = true) := by
  refine ⟨resultContent_isSome, fun r => ?_⟩
  rw [format_success_eq]
  rfl

/-- Counterexample to claim C6: `get_database_drivers` receives a response
whose body "not valid json" fails to decode; the operation's error message
is built only from the decoder's own message and does not contain the raw
response body text. -/
theorem C6_counterexample :
    Prog.run get_database_drivers
        (fun _ => NetResult.decodeErr "not valid json" "expected value at line 1 column 1") 0
      = Except.error ("Erro ao processar resposta: " ++ "expected value at line 1 column 1") ∧
      strContains ("Erro ao processar resposta: " ++ "expected value at line 1 column 1")
          "not valid json" = false := by
  exact ⟨rfl, by decide⟩

/-- Claim C6 as amended: only `connect_database` reads the raw body text
itself, and its deserialization-failure message does include that raw body
text (though not the status); the operations that decode with `.json()`,
such as `get_database_drivers`, report only the decoder's own error
message, which carries no access to the raw body. -/
theorem C6_amended_deserialization_diagnostics (dt : String) (cfg : List (String × Json))
    (status : Nat) (text e body c : String) :
    Prog.run (connect_database dt cfg)
        (fun _ => ConnectNet.response status text (Except.error e)) 0
      = Except.error ("Erro ao processar JSON: " ++ e ++ " - Resposta: " ++ text) ∧
      strContains ("Erro ao processar JSON: " ++ e ++ " - Resposta: " ++ text) text = true ∧
      Prog.run get_database_drivers (fun _ => NetResult.decodeErr body c) 0
        = Except.error ("Erro ao processar resposta: " ++ c) :=
  ⟨rfl, strContains_suffix _ _, rfl⟩

/-- Claim C7: a transport failure makes each of the six operations return
the backend-unreachable error with the underlying cause preserved as a
substring; every run returns a value (for `send_query`, a `some`, i.e. no
panic), so no operation crashes. -/
theorem C7_transport_error (q : String) (hq : validate_input q = true)
    (cause dt : String) (cfg : List (String × Json)) :
    Prog.run (send_query q) (fun _ => NetResult.transportErr cause) 0
        = some (Except.error ("Erro ao comunicar com backend: " ++ cause)) ∧
      strContains ("Erro ao comunicar com backend: " ++ cause) cause = true ∧
      Prog.run get_database_drivers (fun _ => NetResult.transportErr cause) 0
        = Except.error ("Erro ao conectar com backend: " ++ cause) ∧
      Prog.run (connect_database dt cfg) (fun _ => ConnectNet.transportErr cause) 0
        = Except.error ("Erro ao conectar com backend: " ++ cause) ∧
      Prog.run disconnect_database (fun _ => NetResult.transportErr cause) 0
        = Except.error ("Erro ao conectar com backend: " ++ cause) ∧
      Prog.run get_database_status (fun _ => NetResult.transportErr cause) 0
        = Except.error ("Erro ao conectar com backend: " ++ cause) ∧
      Prog.run create_sample_data (fun _ => NetResult.transportErr cause) 0
        = Except.error ("Erro ao conectar com backend: " ++ cause) ∧
      strContains ("Erro ao conectar com backend: " ++ cause) cause = true := by
  refine ⟨?_, strContains_suffix _ _, rfl, rfl, rfl, rfl, rfl, strContains_suffix _ _⟩
  simp [send_query, hq, Prog.run]

/-- Witness for C7 at a concrete valid question and transport cause. -/
theorem C7_witness :
    validate_input "hello" = true ∧
      (Prog.run (send_query "hello") (fun _ => NetResult.transportErr "x") 0
          = some (Except.error ("Erro ao comunicar com backend: " ++ "x")) ∧
        strContains ("Erro ao comunicar com backend: " ++ "x") "x" = true ∧
        Prog.run get_database_drivers (fun _ => NetResult.transportErr "x") 0
          = Except.error ("Erro ao conectar com backend: " ++ "x") ∧
        Prog.run (connect_database "d" []) (fun _ => ConnectNet.transportErr "x") 0
          = Except.error ("Erro ao conectar com backend: " ++ "x") ∧
        Prog.run disconnect_database (fun _ => NetResult.transportErr "x") 0
          = Except.error ("Erro ao conectar com backend: " ++ "x") ∧
        Prog.run get_database_status (fun _ => NetResult.transportErr "x") 0
          = Except.error ("Erro ao conectar com backend: " ++ "x") ∧
        Prog.run create_sample_data (fun _ => NetResult.transportErr "x") 0
          = Except.error ("Erro ao conectar com backend: " ++ "x") ∧
        strContains ("Erro ao conectar com backend: " ++ "x") "x" = true) :=
  ⟨by decide, C7_transport_error "hello" (by decide) "x" "d" []⟩

/-- Claim C8: each of the six operations issues exactly one outbound HTTP
request (for `send_query`, once the validator passes), against the fixed
origin http://localhost:8000, with the table's method and path, and with a
JSON body exactly for `send_query` and `connect_database`. -/
theorem C8_request_shapes (q : String) (hq : validate_input q = true)
    (dt : String) (cfg : List (String × Json))
    (o1 : Nat → NetResult QueryResponse) (o2 : Nat → NetResult (List (String × Driver)))
    (o3 : Nat → ConnectNet) (o4 : Nat → NetResult SimpleResponse)
    (o5 : Nat → NetResult DatabaseStatus) (o6 : Nat → NetResult SimpleResponse) :
    Prog.reqs (send_query q) o1 0 =
        [⟨"POST", "http://localhost:8000/ai/process",
          some (Json.obj [("question", Json.str q)])⟩] ∧
      Prog.reqs get_database_drivers o2 0 =
        [⟨"GET", "http://localhost:8000/drivers", none⟩] ∧
      Prog.reqs (connect_database dt cfg) o3 0 =
        [⟨"POST", "http://localhost:8000/database/connect",
          some (Json.obj [("driver_type", Json.str dt), ("config", Json.obj cfg)])⟩] ∧
      Prog.reqs disconnect_database o4 0 =
        [⟨"POST", "http://localhost:8000/database/disconnect", none⟩] ∧
      Prog.reqs get_database_status o5 0 =
        [⟨"GET", "http://localhost:8000/database/status", none⟩] ∧
      Prog.reqs create_sample_data o6 0 =
        [⟨"POST", "http://localhost:8000/database/sample-data", none⟩] := by
  refine ⟨?_, rfl, rfl, rfl, rfl, rfl⟩
  simp [send_query, hq, Prog.reqs, send_query_request]

/-- Witness for C8 at a concrete valid question, driver, config and
oracles. -/
theorem C8_witness :
    validate_input "hello" = true ∧
      (Prog.reqs (send_query "hello") (fun _ => NetResult.transportErr "x") 0 =
          [⟨"POST", "http://localhost:8000/ai/process",
            some (Json.obj [("question", Json.str "hello")])⟩] ∧
        Prog.reqs get_database_drivers (fun _ => NetResult.transportErr "x") 0 =
          [⟨"GET", "http://localhost:8000/drivers", none⟩] ∧
        Prog.reqs (connect_database "d" []) (fun _ => ConnectNet.transportErr "x") 0 =
          [⟨"POST", "http://localhost:8000/database/connect",
            some (Json.obj [("driver_type", Json.str "d"), ("config", Json.obj [])])⟩] ∧
        Prog.reqs disconnect_database (fun _ => NetResult.transportErr "x") 0 =
          [⟨"POST", "http://localhost:8000/database/disconnect", none⟩] ∧
        Prog.reqs get_database_status (fun _ => NetResult.transportErr "x") 0 =
          [⟨"GET", "http://localhost:8000/database/status", none⟩] ∧
        Prog.reqs create_sample_data (fun _ => NetResult.transportErr "x") 0 =
          [⟨"POST", "http://localhost:8000/database/sample-data", none⟩]) :=
  ⟨by decide, C8_request_shapes "hello" (by decide) "d" []
    (fun _ => NetResult.transportErr "x") (fun _ => NetResult.transportErr "x")
    (fun _ => ConnectNet.transportErr "x") (fun _ => NetResult.transportErr "x")
    (fun _ => NetResult.transportErr "x") (fun _ => NetResult.transportErr "x")⟩

end RustApi
